import Mathlib

/-!
Shallow embedding of the quicksilver-roguelike program (src/src/main.rs) and
verification of the specification claims about it.

Modelling conventions:
* `f32` values are embedded as exact rationals (`Rat`); every numeric value the
  program manipulates (small integer coordinates, 24-pixel tile sizes, the
  health-bar width `hp/max_hp * 100`) is produced by exact arithmetic in the
  source, so `Rat` mirrors the intended values.
* The quicksilver `Window` is embedded as a log of issued draw calls plus the
  screen size; `window.draw`/`window.clear` append to the log.
* `Image` is an inductive that distinguishes root images from sub-image views,
  so that "a view, not a copy" is expressible.
* Fallible operations return `Outcome`, with a separate constructor for a Rust
  panic (`expect`), which is distinct from a propagated `Err`.
-/

namespace RL

/-- Embeds quicksilver's `Vector` (two `f32` components) with exact rationals. -/
structure Vector where
  x : Rat
  y : Rat
deriving DecidableEq, Repr

instance : Add Vector where
  add v w := ⟨v.x + w.x, v.y + w.y⟩

/-- Embeds `Vector::times`: component-wise product. -/
def Vector.times (v w : Vector) : Vector :=
  ⟨v.x * w.x, v.y * w.y⟩

/-- Embeds quicksilver's `Color` (rgba components). -/
structure Color where
  r : Rat
  g : Rat
  b : Rat
  a : Rat
deriving DecidableEq, Repr

def Color.BLACK : Color := ⟨0, 0, 0, 1⟩

def Color.WHITE : Color := ⟨1, 1, 1, 1⟩

def Color.RED : Color := ⟨1, 0, 0, 1⟩

def Color.BLUE : Color := ⟨0, 0, 1, 1⟩

def Color.PURPLE : Color := ⟨1, 0, 1, 1⟩

/-- Embeds `Color::with_alpha`. -/
def Color.with_alpha (c : Color) (a : Rat) : Color :=
  { c with a := a }

/-- Embeds `struct Tile` from main.rs. -/
structure Tile where
  pos : Vector
  glyph : Char
  color : Color
deriving DecidableEq, Repr

/--
Embeds `generate_map` from main.rs.  The source receives `size: Vector` and casts the
components to `usize` (`size.x as usize`); the embedding takes the two natural
numbers directly.  The loop order (outer `x`, inner `y`) and the
wall-iff-border mutation are reproduced exactly.
-/
def generate_map (width height : Nat) : List Tile :=
  (List.range width).flatMap (fun (x : Nat) =>
    (List.range height).map (fun (y : Nat) =>
      { pos := ⟨(x : Rat), (y : Rat)⟩
        glyph := if x == 0 || x == width - 1 || y == 0 || y == height - 1 then '#' else '.'
        color := Color.BLACK }))

/-- Embeds `struct Entity` from main.rs. -/
structure Entity where
  pos : Vector
  glyph : Char
  color : Color
  hp : Int
  max_hp : Int
deriving DecidableEq, Repr

/-- Embeds `generate_entities` from main.rs: the fixed literal list of four entities. -/
def generate_entities : List Entity :=
  [ { pos := ⟨9, 6⟩, glyph := 'g', color := Color.RED, hp := 1, max_hp := 1 }
  , { pos := ⟨2, 4⟩, glyph := 'g', color := Color.RED, hp := 1, max_hp := 1 }
  , { pos := ⟨7, 5⟩, glyph := '%', color := Color.PURPLE, hp := 0, max_hp := 0 }
  , { pos := ⟨4, 8⟩, glyph := '%', color := Color.PURPLE, hp := 0, max_hp := 0 } ]

/-- Embeds quicksilver's `Rectangle` (position of top-left corner plus size). -/
structure Rectangle where
  pos : Vector
  size : Vector
deriving DecidableEq, Repr

/--
Embeds quicksilver's `Image`.  A root image is an owned pixel buffer
(identified by a tag plus its pixel size); `Image::subimage` produces a view
into its receiver, which the `sub` constructor records by retaining the parent
image, so view-ness is observable.
-/
inductive Image where
  | root (tag : Nat) (size : Vector)
  | sub (parent : Image) (region : Rectangle)
deriving DecidableEq, Repr

/-- The pixel size of an image (a view has the size of its region). -/
def Image.size : Image → Vector
  | .root _ s => s
  | .sub _ r => r.size

/-- Embeds `Image::subimage`: a view into the receiver, not a copy. -/
def Image.subimage (img : Image) (region : Rectangle) : Image :=
  .sub img region

/-- Embeds `Image::area`: the image's bounding rectangle, anchored at the origin. -/
def Image.area (img : Image) : Rectangle :=
  ⟨⟨0, 0⟩, img.size⟩

/-- Embeds `Shape::with_center`: reposition a rectangle so its center is the argument. -/
def Rectangle.with_center (r : Rectangle) (c : Vector) : Rectangle :=
  ⟨⟨c.x - r.size.x / 2, c.y - r.size.y / 2⟩, r.size⟩

/-- Embeds `Shape::translate`. -/
def Rectangle.translate (r : Rectangle) (v : Vector) : Rectangle :=
  ⟨⟨r.pos.x + v.x, r.pos.y + v.y⟩, r.size⟩

/-- The `as i32` cast of an `f32`; every cast value in the program is a
nonnegative whole number, where truncation and floor agree. -/
def as_i32 (x : Rat) : Int :=
  x.floor

/-- Embeds `quicksilver::graphics::Background` (the three variants used). -/
inductive Background where
  | Img (image : Image)
  | Blended (image : Image) (color : Color)
  | Col (color : Color)
deriving DecidableEq, Repr

/-- One call issued against the window: `window.clear` or `window.draw`. -/
inductive DrawCall where
  | clear (color : Color)
  | draw (area : Rectangle) (bg : Background)
deriving DecidableEq, Repr

/-- The drawing surface: screen size plus the log of issued calls. -/
structure Window where
  screen_size : Vector
  calls : List DrawCall
deriving DecidableEq, Repr

/-- Append one call to the window's log. -/
def Window.push (w : Window) (c : DrawCall) : Window :=
  { w with calls := w.calls ++ [c] }

/-- Embeds `quicksilver::Error` as produced by the font collaborator. -/
inductive QError where
  | fontLoadFailed (path : String)
  | renderFailed (text : String)
deriving DecidableEq, Repr

/-- Result of running fallible code that may also panic (Rust `expect`). -/
inductive Outcome (α : Type) where
  | ok (a : α)
  | err (e : QError)
  | panic (msg : String)
deriving DecidableEq, Repr

/-- Embeds `FontStyle::new(size, color)`. -/
structure FontStyle where
  size : Rat
  color : Color

/-- The font collaborator: `Font::render` is an opaque external service. -/
structure Font where
  render : String → FontStyle → Except QError Image

/-- The environment supplied by the external font collaborator:
`Font::load(path)` either yields a font or fails. -/
structure FontEnv where
  load : String → Except QError Font

/-- State of a deferred asset. -/
inductive AssetState (α : Type) where
  | pending
  | ready (value : α)
  | failed (e : QError)

/--
Modelled from the spec: the `Asset` deferred-loading wrapper lives in the
quicksilver library, not under src/, so its behaviour is taken from spec §4.1:
the producer is evaluated lazily, at most once; on first success the value is
cached (`ready`) and handed to every consumer; on failure the asset becomes
`failed` terminally and the error is surfaced to the caller on every access.
`evals` instruments the number of producer evaluations; the producer itself is
synchronous (the in-scope loaders are), so a `pending` asset resolves on its
first access.
-/
structure Asset (α : Type) where
  producer : Outcome α
  state : AssetState α
  evals : Nat

/-- Embeds `Asset::new`: store the unevaluated computation. -/
def Asset.new (producer : Outcome α) : Asset α :=
  ⟨producer, .pending, 0⟩

/--
Modelled from the spec: `Asset::execute` (spec §4.1 `runWhenReady`), with the
consumer acting on a state of type `σ` (the window during drawing, an
observation log in the algebraic claims).  The consumers in this program never
fail, so the consumer is a total state transformer.
-/
def Asset.execute (a : Asset α) (s : σ) (consumer : α → σ → σ) :
    σ × Asset α × Outcome Unit :=
  match a.state with
  | .ready v => (consumer v s, a, .ok ())
  | .failed e => (s, a, .err e)
  | .pending =>
    match a.producer with
    | .ok v => (consumer v s, { a with state := .ready v, evals := a.evals + 1 }, .ok ())
    | .err e => (s, { a with state := .failed e, evals := a.evals + 1 }, .err e)
    | .panic m => (s, a, .panic m)

/-- The glyph-to-image mapping (`HashMap<char, Image>` in the source),
embedded as an association list where `insert` prepends (so a lookup sees the
most recent insertion, matching `HashMap::insert`'s overwrite semantics). -/
def tileset_insert (m : List (Char × Image)) (k : Char) (v : Image) :
    List (Char × Image) :=
  (k, v) :: m

/-- Embeds `HashMap::get` on the embedded mapping. -/
def tileset_get (m : List (Char × Image)) (k : Char) : Option Image :=
  (m.find? (fun p => p.1 == k)).map Prod.snd

def font_mononoki : String := "mononoki-Regular.ttf"

def font_square : String := "square.ttf"

def game_glyphs : String := "#@g.%"

def tile_size_px : Vector := ⟨24, 24⟩

/-- The loop body of the tileset producer in `Game::new`: slice the rendered
strip into one `tile_size_px` sub-image view per glyph, at offset
`(index * tile_size_px.x, 0)`. -/
def tileset_of_strip (tiles : Image) : List (Char × Image) :=
  game_glyphs.toList.enum.foldl
    (fun tileset p =>
      let pos : Int × Int := ((p.1 : Int) * as_i32 tile_size_px.x, 0)
      let tile := tiles.subimage ⟨⟨(pos.1 : Rat), (pos.2 : Rat)⟩, tile_size_px⟩
      tileset_insert tileset p.2 tile)
    []

/-- The producer of the `title` asset in `Game::new`:
`Font::load(font_mononoki).and_then(|font| font.render("Quicksilver Roguelike", ...))`.
Both the load error and the render error propagate. -/
def title_producer (env : FontEnv) : Outcome Image :=
  match env.load font_mononoki with
  | .error e => .err e
  | .ok font =>
    match font.render "Quicksilver Roguelike" ⟨72, Color.BLACK⟩ with
    | .error e => .err e
    | .ok img => .ok img

/-- The producer of the `mononoki_font_info` caption asset in `Game::new`. -/
def mononoki_info_producer (env : FontEnv) : Outcome Image :=
  match env.load font_mononoki with
  | .error e => .err e
  | .ok font =>
    match font.render
        "Mononoki font by Matthias Tellen, terms: SIL Open Font License 1.1"
        ⟨20, Color.BLACK⟩ with
    | .error e => .err e
    | .ok img => .ok img

/-- The producer of the `square_font_info` caption asset in `Game::new`. -/
def square_info_producer (env : FontEnv) : Outcome Image :=
  match env.load font_mononoki with
  | .error e => .err e
  | .ok font =>
    match font.render
        "Square font by Wouter Van Oortmerssen, terms: CC BY 3.0"
        ⟨20, Color.BLACK⟩ with
    | .error e => .err e
    | .ok img => .ok img

/-- The producer of the `tileset` asset in `Game::new`.  A `Font::load` error
propagates through `and_then`, but a render failure hits
`.expect("Could not render the font tileset.")`, i.e. a process-aborting
panic, not a propagated error. -/
def tileset_producer (env : FontEnv) : Outcome (List (Char × Image)) :=
  match env.load font_square with
  | .error e => .err e
  | .ok text =>
    match text.render game_glyphs ⟨tile_size_px.y, Color.WHITE⟩ with
    | .error _ => .panic "Could not render the font tileset."
    | .ok tiles => .ok (tileset_of_strip tiles)

/-- Embeds `struct Game` from main.rs. -/
structure Game where
  title : Asset Image
  mononoki_font_info : Asset Image
  square_font_info : Asset Image
  map_size : Vector
  map : List Tile
  entities : List Entity
  player_entity_id : Nat
  tileset : Asset (List (Char × Image))
  tile_size_px : Vector

/-- The player entity pushed by `Game::new`. -/
def player_entity : Entity :=
  { pos := ⟨5, 3⟩, glyph := '@', color := Color.BLUE, hp := 3, max_hp := 5 }

/-- The `Game` value built by `Game::new` (the body of the `Ok(Self { ... })`).
`map_size` is `Vector::new(15, 15)` and `generate_map` receives its components
cast to `usize`. -/
def Game.init (env : FontEnv) : Game :=
  { title := Asset.new (title_producer env)
    mononoki_font_info := Asset.new (mononoki_info_producer env)
    square_font_info := Asset.new (square_info_producer env)
    map_size := ⟨15, 15⟩
    map := generate_map 15 15
    entities := generate_entities ++ [player_entity]
    player_entity_id := generate_entities.length
    tileset := Asset.new (tileset_producer env)
    tile_size_px := RL.tile_size_px }

/-- Embeds `Game::new`, which returns `Result<Self>`; it has no failure path (asset loading
is deferred), so it is always `Ok`. -/
def Game.new (env : FontEnv) : Except QError Game :=
  .ok (Game.init env)

/-- Embeds `Game::update`: a no-op returning `Ok(())`. -/
def Game.update (g : Game) (w : Window) : Game × Window × Outcome Unit :=
  (g, w, .ok ())

/-- Upper-left corner of the map on the screen (`map_offset_px` in `draw`). -/
def map_offset_px : Vector := ⟨50, 120⟩

/-- Embeds `Game::draw` from main.rs, as a function from the game state and window to
the updated game state, the updated window (its call log extended by the draws
this frame issues) and the frame's outcome.  Every `execute` call is followed
by `?` in the source, so a non-`ok` outcome aborts the rest of the frame. -/
def Game.draw (g : Game) (w : Window) : Game × Window × Outcome Unit :=
  let w := w.push (.clear Color.WHITE)
  match g.title.execute w (fun image w =>
      w.push (.draw (image.area.with_center
        ⟨((as_i32 w.screen_size.x / 2 : Int) : Rat), 40⟩) (.Img image))) with
  | (w, title, Outcome.ok _) =>
    match g.mononoki_font_info.execute w (fun image w =>
        w.push (.draw (image.area.translate
          ⟨2, ((as_i32 w.screen_size.y - 60 : Int) : Rat)⟩) (.Img image))) with
    | (w, mononoki_font_info, Outcome.ok _) =>
      match g.square_font_info.execute w (fun image w =>
          w.push (.draw (image.area.translate
            ⟨2, ((as_i32 w.screen_size.y - 30 : Int) : Rat)⟩) (.Img image))) with
      | (w, square_font_info, Outcome.ok _) =>
        let tile_size_px := g.tile_size_px
        match g.tileset.execute w (fun tileset w =>
            g.map.foldl (fun w tile =>
              match tileset_get tileset tile.glyph with
              | some image =>
                w.push (.draw ⟨map_offset_px + tile.pos.times tile_size_px,
                  image.area.size⟩ (.Blended image tile.color))
              | none => w) w) with
        | (w, tileset1, Outcome.ok _) =>
          match tileset1.execute w (fun tileset w =>
              g.entities.foldl (fun w entity =>
                match tileset_get tileset entity.glyph with
                | some image =>
                  w.push (.draw ⟨map_offset_px + entity.pos.times tile_size_px,
                    image.area.size⟩ (.Blended image entity.color))
                | none => w) w) with
          | (w, tileset, Outcome.ok _) =>
            let full_health_width_px : Rat := 100
            match g.entities.get? g.player_entity_id with
            | some player =>
              let current_health_width_px :=
                ((player.hp : Rat) / (player.max_hp : Rat)) * full_health_width_px
              let map_size_px := g.map_size.times tile_size_px
              let health_bar_pos_px := map_offset_px + ⟨map_size_px.x, 0⟩
              let w := w.push (.draw
                ⟨health_bar_pos_px, ⟨full_health_width_px, tile_size_px.y⟩⟩
                (.Col (Color.RED.with_alpha (1/2))))
              let w := w.push (.draw
                ⟨health_bar_pos_px, ⟨current_health_width_px, tile_size_px.y⟩⟩
                (.Col Color.RED))
              ({ g with title, mononoki_font_info, square_font_info, tileset },
               w, .ok ())
            | none =>
              ({ g with title, mononoki_font_info, square_font_info, tileset },
               w, .panic "index out of bounds")
          | (w, tileset, out) =>
            ({ g with title, mononoki_font_info, square_font_info, tileset }, w, out)
        | (w, tileset, out) =>
          ({ g with title, mononoki_font_info, square_font_info, tileset }, w, out)
      | (w, square_font_info, out) =>
        ({ g with title, mononoki_font_info, square_font_info }, w, out)
    | (w, mononoki_font_info, out) =>
      ({ g with title, mononoki_font_info }, w, out)
  | (w, title, out) =>
    ({ g with title }, w, out)

/-! Concrete fixtures: a font environment in which every load and render
succeeds, the images it produces, and the scene state with every deferred
asset already `ready`. -/

/-- The rendered glyph strip: five 24-pixel cells, 120x24 pixels. -/
def strip_image : Image := .root 0 ⟨120, 24⟩

def title_image : Image := .root 1 ⟨600, 80⟩

def mono_image : Image := .root 2 ⟨560, 24⟩

def square_image : Image := .root 3 ⟨480, 24⟩

/-- A font environment in which both fonts load and every render succeeds. -/
def good_env : FontEnv :=
  ⟨fun path =>
    if path = font_square then .ok ⟨fun _ _ => .ok strip_image⟩
    else .ok ⟨fun text _ =>
      if text = "Quicksilver Roguelike" then .ok title_image
      else if text = "Mononoki font by Matthias Tellen, terms: SIL Open Font License 1.1"
        then .ok mono_image
      else .ok square_image⟩⟩

/-- The tileset sliced from the default strip. -/
def default_tileset : List (Char × Image) := tileset_of_strip strip_image

/-- The default scene with every deferred asset forced `ready`. -/
def ready_game : Game :=
  { Game.init good_env with
    title := ⟨.ok title_image, .ready title_image, 1⟩
    mononoki_font_info := ⟨.ok mono_image, .ready mono_image, 1⟩
    square_font_info := ⟨.ok square_image, .ready square_image, 1⟩
    tileset := ⟨.ok default_tileset, .ready default_tileset, 1⟩ }

/-- The 800x600 window from `main`, with an empty call log. -/
def window0 : Window := ⟨⟨800, 600⟩, []⟩

/-! Draw-call classifiers and the per-layer decompositions of the frame,
used to state structural properties of `Game.draw`. -/

/-- Is this call the background clear? -/
def DrawCall.isClear : DrawCall → Bool
  | .clear _ => true
  | _ => false

/-- Is this call an untinted image draw (title or attribution caption)? -/
def DrawCall.isImageDraw : DrawCall → Bool
  | .draw _ (.Img _) => true
  | _ => false

/-- Is this call a tinted glyph draw (map tile or entity)? -/
def DrawCall.isBlendedDraw : DrawCall → Bool
  | .draw _ (.Blended _ _) => true
  | _ => false

/-- Is this call a solid-color rectangle (health bar)? -/
def DrawCall.isRectFill : DrawCall → Bool
  | .draw _ (.Col _) => true
  | _ => false

/-- The title draw issued by the title consumer in `Game::draw`. -/
def title_call (w : Window) (ti : Image) : DrawCall :=
  .draw (ti.area.with_center ⟨((as_i32 w.screen_size.x / 2 : Int) : Rat), 40⟩) (.Img ti)

/-- The mononoki attribution draw issued in `Game::draw`. -/
def mono_call (w : Window) (mi : Image) : DrawCall :=
  .draw (mi.area.translate ⟨2, ((as_i32 w.screen_size.y - 60 : Int) : Rat)⟩) (.Img mi)

/-- The square-font attribution draw issued in `Game::draw`. -/
def square_call (w : Window) (si : Image) : DrawCall :=
  .draw (si.area.translate ⟨2, ((as_i32 w.screen_size.y - 30 : Int) : Rat)⟩) (.Img si)

/-- The map layer: one tinted draw per tile whose glyph is in the tileset, at
screen position `map_offset_px + tile.pos * tile_size`. -/
def map_layer (ts : List (Char × Image)) (sz : Vector) (tiles : List Tile) :
    List DrawCall :=
  tiles.filterMap (fun tile =>
    (tileset_get ts tile.glyph).map (fun image =>
      .draw ⟨map_offset_px + tile.pos.times sz, image.area.size⟩
        (.Blended image tile.color)))

/-- The entity layer: one tinted draw per entity whose glyph is in the
tileset, at screen position `map_offset_px + entity.pos * tile_size`. -/
def entity_layer (ts : List (Char × Image)) (sz : Vector) (entities : List Entity) :
    List DrawCall :=
  entities.filterMap (fun entity =>
    (tileset_get ts entity.glyph).map (fun image =>
      .draw ⟨map_offset_px + entity.pos.times sz, image.area.size⟩
        (.Blended image entity.color)))

/-- The two health-bar rectangles: translucent full bar then opaque current
bar, both anchored immediately right of the map, `tile_size.y` tall. -/
def health_bar_calls (g : Game) (player : Entity) : List DrawCall :=
  [ .draw ⟨map_offset_px + ⟨(g.map_size.times g.tile_size_px).x, 0⟩,
      ⟨100, g.tile_size_px.y⟩⟩ (.Col (Color.RED.with_alpha (1/2)))
  , .draw ⟨map_offset_px + ⟨(g.map_size.times g.tile_size_px).x, 0⟩,
      ⟨((player.hp : Rat) / (player.max_hp : Rat)) * 100, g.tile_size_px.y⟩⟩
      (.Col Color.RED) ]

/-- The host loop: run `update` then `draw`, `n` frames in a row (outcomes are
reported to the host each frame; the loop keeps the final state and window). -/
def run_frames (g : Game) (w : Window) : Nat → Game × Window
  | 0 => (g, w)
  | n + 1 =>
    let s1 := g.update w
    let s2 := s1.1.draw s1.2.1
    run_frames s2.1 s2.2.1 n

/-- Iterated per-frame access of a deferred asset: each call hands the cached
value to a consumer that appends it to an observation log. -/
def Asset.runN (a : Asset α) (log : List α) : Nat → Asset α × List α
  | 0 => (a, log)
  | n + 1 =>
    let s := a.execute log (fun v l => l ++ [v])
    Asset.runN s.2.1 s.1 n

/-- Did this outcome propagate an error (as opposed to succeeding or
aborting the process)? -/
def Outcome.isErr : Outcome α → Bool
  | .err _ => true
  | _ => false

/-- Is this asset in the terminal `failed` state? -/
def AssetState.isFailed : AssetState α → Bool
  | .failed _ => true
  | _ => false

/-- The default scene with the mononoki caption asset in the terminal
`failed` state (the situation spec §7 ascribes to an asynchronous loader). -/
def failed_mono_game : Game :=
  { ready_game with
    mononoki_font_info :=
      ⟨.err (QError.renderFailed font_mononoki), .failed (QError.renderFailed font_mononoki), 1⟩ }

/-- A font environment in which every `Font::load` succeeds but every
`Font::render` fails. -/
def env_render_fail : FontEnv :=
  ⟨fun _ => .ok ⟨fun text _ => .error (QError.renderFailed text)⟩⟩

/-- A font environment in which every `Font::load` fails. -/
def env_load_fail : FontEnv :=
  ⟨fun path => .error (QError.fontLoadFailed path)⟩

/-- A rendered glyph strip that is narrower than `5 * 24` pixels. -/
def narrow_strip : Image := .root 9 ⟨96, 24⟩

/-- A font environment whose square font renders the narrow strip. -/
def env_narrow : FontEnv :=
  ⟨fun _ => .ok ⟨fun _ _ => .ok narrow_strip⟩⟩

/-- The default ready scene except that the player's `max_hp` is `0` (the
state the specification claims is rejected during setup). -/
def zero_max_hp_game : Game :=
  { ready_game with
    entities := generate_entities ++ [{ player_entity with max_hp := 0 }] }

@[simp]
theorem Window.push_screen_size (w : Window) (c : DrawCall) :
    (w.push c).screen_size = w.screen_size := rfl

@[simp]
theorem Window.push_calls (w : Window) (c : DrawCall) :
    (w.push c).calls = w.calls ++ [c] := rfl

theorem Asset.execute_ready (a : Asset α) (v : α) (h : a.state = .ready v)
    (s : σ) (consumer : α → σ → σ) :
    a.execute s consumer = (consumer v s, a, .ok ()) := by
  unfold Asset.execute
  rw [h]

theorem Asset.execute_failed (a : Asset α) (e : QError) (h : a.state = .failed e)
    (s : σ) (consumer : α → σ → σ) :
    a.execute s consumer = (s, a, .err e) := by
  unfold Asset.execute
  rw [h]

theorem map_fold_eq (tiles : List Tile) (ts : List (Char × Image)) (sz : Vector) :
    ∀ w : Window,
      tiles.foldl (fun w tile =>
        match tileset_get ts tile.glyph with
        | some image =>
          w.push (.draw ⟨map_offset_px + tile.pos.times sz, image.area.size⟩
            (.Blended image tile.color))
        | none => w) w
      = { w with calls := w.calls ++ map_layer ts sz tiles } := by
  induction tiles with
  | nil => intro w; simp [map_layer]
  | cons t tiles ih =>
    intro w
    cases hb : tileset_get ts t.glyph with
    | none =>
      simp only [List.foldl_cons, hb]
      rw [ih w]
      simp [map_layer, List.filterMap_cons, hb]
    | some image =>
      simp only [List.foldl_cons, hb]
      rw [ih]
      simp [map_layer, List.filterMap_cons, hb, Window.push, List.append_assoc]

theorem entity_fold_eq (entities : List Entity) (ts : List (Char × Image)) (sz : Vector) :
    ∀ w : Window,
      entities.foldl (fun w entity =>
        match tileset_get ts entity.glyph with
        | some image =>
          w.push (.draw ⟨map_offset_px + entity.pos.times sz, image.area.size⟩
            (.Blended image entity.color))
        | none => w) w
      = { w with calls := w.calls ++ entity_layer ts sz entities } := by
  induction entities with
  | nil => intro w; simp [entity_layer]
  | cons t entities ih =>
    intro w
    cases hb : tileset_get ts t.glyph with
    | none =>
      simp only [List.foldl_cons, hb]
      rw [ih w]
      simp [entity_layer, List.filterMap_cons, hb]
    | some image =>
      simp only [List.foldl_cons, hb]
      rw [ih]
      simp [entity_layer, List.filterMap_cons, hb, Window.push, List.append_assoc]

/-- Structural form of one frame when every deferred asset is `ready` and the
player lookup succeeds: the frame issues, in order, the clear, the three
caption draws, the map layer, the entity layer and the health bar, succeeds,
and leaves the game state unchanged. -/
theorem draw_ready (g : Game) (w : Window) (ti mi si : Image)
    (ts : List (Char × Image)) (player : Entity)
    (h1 : g.title.state = .ready ti)
    (h2 : g.mononoki_font_info.state = .ready mi)
    (h3 : g.square_font_info.state = .ready si)
    (h4 : g.tileset.state = .ready ts)
    (h5 : g.entities.get? g.player_entity_id = some player) :
    g.draw w =
      (g,
       { w with calls := w.calls ++
          [DrawCall.clear Color.WHITE, title_call w ti, mono_call w mi, square_call w si]
          ++ map_layer ts g.tile_size_px g.map
          ++ entity_layer ts g.tile_size_px g.entities
          ++ health_bar_calls g player },
       .ok ()) := by
  obtain ⟨⟨pt, stt, kt⟩, ⟨pm, stm, km⟩, ⟨ps, sts, ks⟩, ms, mp, ents, pid, ⟨pts, stts, kts⟩, tsz⟩ := g
  simp only [Asset.state] at h1 h2 h3 h4
  simp only [Game.entities, Game.player_entity_id] at h5
  subst h1 h2 h3 h4
  simp only [Game.draw, Asset.execute, map_fold_eq, entity_fold_eq, h5]
  simp [title_call, mono_call, square_call, health_bar_calls, Window.push,
    List.append_assoc]

/-- Frame invariance: `Game.draw` never touches the scene model: the map, the entity list and
the player index of the resulting state are those of the input state, in every
branch of the frame. -/
theorem draw_preserves_scene (g : Game) (w : Window) :
    ((g.draw w).1).entities = g.entities ∧
    ((g.draw w).1).player_entity_id = g.player_entity_id ∧
    ((g.draw w).1).map = g.map ∧
    ((g.draw w).1).map_size = g.map_size ∧
    ((g.draw w).1).tile_size_px = g.tile_size_px := by
  unfold Game.draw
  dsimp only
  repeat' split
  all_goals exact ⟨rfl, rfl, rfl, rfl, rfl⟩

theorem runN_ready (p : Outcome α) (v : α) (k : Nat) :
    ∀ (log : List α) (n : Nat),
      (Asset.mk p (.ready v) k).runN log n
        = (Asset.mk p (.ready v) k, log ++ List.replicate n v) := by
  intro log n
  induction n generalizing log with
  | zero => simp [Asset.runN]
  | succ n ih =>
    simp [Asset.runN, Asset.execute, ih, List.replicate_succ]

/-! Counting infrastructure for the `generate_map` wall-count claim. -/

theorem countP_or_split (p q : α → Bool) :
    ∀ l : List α, (∀ a ∈ l, ¬(p a = true ∧ q a = true)) →
      l.countP (fun a => p a || q a) = l.countP p + l.countP q := by
  intro l
  induction l with
  | nil => intro _; simp
  | cons x xs ih =>
    intro hdisj
    simp only [List.countP_cons]
    rw [ih (fun a ha => hdisj a (List.mem_cons_of_mem _ ha))]
    have hx := hdisj x (List.mem_cons_self x xs)
    cases hpx : p x <;> cases hqx : q x <;> simp [hpx, hqx] at hx ⊢ <;> omega

theorem count_range_ends (h : Nat) (hh : 3 ≤ h) :
    (List.range h).countP (fun y => y == 0 || y == h - 1) = 2 := by
  rw [countP_or_split]
  · have h0 : (List.range h).count 0 = 1 :=
      List.count_eq_one_of_mem (List.nodup_range h) (List.mem_range.mpr (by omega))
    have h1 : (List.range h).count (h - 1) = 1 :=
      List.count_eq_one_of_mem (List.nodup_range h) (List.mem_range.mpr (by omega))
    have e0 : (List.range h).countP (fun y => y == 0) = (List.range h).count 0 := rfl
    have e1 : (List.range h).countP (fun y => y == h - 1) = (List.range h).count (h - 1) := rfl
    rw [e0, e1, h0, h1]
  · intro a _ h
    have := h.1
    have := h.2
    simp only [beq_iff_eq] at *
    omega

/-- Number of walls in one column of the generated map: a border column is all
walls, an interior column has exactly its two end cells. -/
theorem column_wall_count (width height x : Nat) (hh : 3 ≤ height) :
    ((List.range height).map (fun (y : Nat) =>
      ({ pos := ⟨(x : Rat), (y : Rat)⟩
         glyph := if x == 0 || x == width - 1 || y == 0 || y == height - 1 then '#' else '.'
         color := Color.BLACK } : Tile))).countP (fun t => t.glyph == '#')
    = if x = 0 ∨ x = width - 1 then height else 2 := by
  rw [List.countP_map]
  by_cases hx : x = 0 ∨ x = width - 1
  · rw [if_pos hx]
    rw [List.countP_eq_length.mpr, List.length_range]
    intro y _
    simp only [Function.comp_apply]
    have hcond : (x == 0 || x == width - 1 || y == 0 || y == height - 1) = true := by
      rcases hx with hx | hx <;> simp [hx]
    rw [hcond]
    rfl
  · rw [if_neg hx]
    push_neg at hx
    have hx0 : (x == 0) = false := by simp [hx.1]
    have hx1 : (x == width - 1) = false := by simp [hx.2]
    have : ((List.range height).countP
        ((fun t => t.glyph == '#') ∘ (fun (y : Nat) =>
          ({ pos := ⟨(x : Rat), (y : Rat)⟩
             glyph := if x == 0 || x == width - 1 || y == 0 || y == height - 1 then '#' else '.'
             color := Color.BLACK } : Tile))))
        = (List.range height).countP (fun y => y == 0 || y == height - 1) := by
      apply List.countP_congr
      intro y _
      simp only [Function.comp, hx0, hx1, Bool.false_or]
      cases hy : (y == 0 || y == height - 1) <;> simp [hy]
    rw [this, count_range_ends height hh]

theorem sum_interior (h : Nat) :
    ∀ m : Nat, ((List.range (m + 2)).map (fun x => if x = 0 then h else 2)).sum
      = h + 2 * (m + 1) := by
  intro m
  induction m with
  | zero =>
    have h2 : List.range 2 = [0, 1] := rfl
    rw [h2]
    simp
  | succ m ih =>
    have : m + 1 + 2 = (m + 2) + 1 := rfl
    rw [this, List.range_succ, List.map_append, List.sum_append, ih]
    simp only [List.map_cons, List.map_nil, List.sum_cons, List.sum_nil]
    rw [if_neg (by omega : ¬ m + 2 = 0)]
    omega

theorem sum_column_counts (h w : Nat) (hw : 3 ≤ w) :
    ((List.range w).map (fun x => if x = 0 ∨ x = w - 1 then h else 2)).sum
      = 2 * w + 2 * h - 4 := by
  obtain ⟨m, rfl⟩ : ∃ m, w = m + 3 := ⟨w - 3, by omega⟩
  have : m + 3 = (m + 2) + 1 := rfl
  rw [this, List.range_succ, List.map_append, List.sum_append]
  have hmap : (List.range (m + 2)).map (fun x => if x = 0 ∨ x = (m + 2) + 1 - 1 then h else 2)
      = (List.range (m + 2)).map (fun x => if x = 0 then h else 2) := by
    apply List.map_congr_left
    intro a ha
    have ha' := List.mem_range.mp ha
    by_cases h0 : a = 0
    · simp [h0]
    · rw [if_neg, if_neg h0]
      omega
  rw [hmap, sum_interior]
  simp only [List.map_cons, List.map_nil, List.sum_cons, List.sum_nil]
  rw [if_pos (by omega : (m + 2 : Nat) = 0 ∨ m + 2 = (m + 2) + 1 - 1)]
  omega

theorem generate_map_wall_count (width height : Nat) (hw : 3 ≤ width) (hh : 3 ≤ height) :
    (generate_map width height).countP (fun t => t.glyph == '#')
      = 2 * width + 2 * height - 4 := by
  unfold generate_map
  rw [List.countP_flatMap]
  simp only [Function.comp_def]
  have hmap : (List.range width).map (fun (x : Nat) =>
        ((List.range height).map (fun (y : Nat) =>
          ({ pos := ⟨(x : Rat), (y : Rat)⟩
             glyph := if x == 0 || x == width - 1 || y == 0 || y == height - 1 then '#' else '.'
             color := Color.BLACK } : Tile))).countP (fun t => t.glyph == '#'))
      = (List.range width).map (fun x => if x = 0 ∨ x = width - 1 then height else 2) := by
    apply List.map_congr_left
    intro x _
    exact column_wall_count width height x hh
  rw [hmap, sum_column_counts height width hw]

theorem generate_map_length (width height : Nat) :
    (generate_map width height).length = width * height := by
  unfold generate_map
  rw [List.length_flatMap]
  simp only [Function.comp_def, List.length_map, List.length_range]
  rw [List.map_const', List.sum_replicate, List.length_range, smul_eq_mul]

set_option maxRecDepth 100000 in
/-- C1: for the default scene built by setup (15x15 map, the 4 literal
entities plus the player at grid (5,3) with hp=3/max_hp=5), one call of the
draw routine with every deferred asset ready issues exactly 1 background
clear, 1 title draw, 2 caption draws, 225 map-tile draws (none skipped, every
map glyph is in the tileset), 5 entity draws and 2 health-bar rectangles —
236 draw calls in total, and the frame succeeds. -/
theorem C1_draw_call_census :
    (Game.draw ready_game window0).2.2 = Outcome.ok () ∧
    (Game.draw ready_game window0).2.1.calls =
      [DrawCall.clear Color.WHITE, title_call window0 title_image,
        mono_call window0 mono_image, square_call window0 square_image]
      ++ map_layer default_tileset RL.tile_size_px ready_game.map
      ++ entity_layer default_tileset RL.tile_size_px ready_game.entities
      ++ health_bar_calls ready_game player_entity ∧
    (map_layer default_tileset RL.tile_size_px ready_game.map).length = 225 ∧
    (map_layer default_tileset RL.tile_size_px ready_game.map).countP
      DrawCall.isBlendedDraw = 225 ∧
    (entity_layer default_tileset RL.tile_size_px ready_game.entities).length = 5 ∧
    (entity_layer default_tileset RL.tile_size_px ready_game.entities).countP
      DrawCall.isBlendedDraw = 5 ∧
    (health_bar_calls ready_game player_entity).length = 2 ∧
    (health_bar_calls ready_game player_entity).countP DrawCall.isRectFill = 2 ∧
    (Game.draw ready_game window0).2.1.calls.countP DrawCall.isClear = 1 ∧
    (Game.draw ready_game window0).2.1.calls.countP DrawCall.isImageDraw = 3 ∧
    (Game.draw ready_game window0).2.1.calls.length = 236 := by
  have h := draw_ready ready_game window0 title_image mono_image square_image
    default_tileset player_entity rfl rfl rfl rfl rfl
  rw [h]
  exact ⟨rfl, rfl, by decide, by decide, by decide, by decide, by decide, by decide,
    by decide, by decide, by decide⟩

set_option maxRecDepth 100000 in
/-- C2: for every width ≥ 3 and height ≥ 3, `generate_map` returns exactly
width*height tiles, contains the tile of every grid cell, a tile's glyph is
'#' iff its cell lies on the outer border and '.' otherwise, every tile is
black-tinted, and exactly 2*width + 2*height - 4 tiles are walls. -/
theorem C2_generate_map_shape (width height : Nat) (hw : 3 ≤ width) (hh : 3 ≤ height) :
    (generate_map width height).length = width * height ∧
    (∀ x y : Nat, x < width → y < height →
      ({ pos := ⟨(x : Rat), (y : Rat)⟩
         glyph := if x == 0 || x == width - 1 || y == 0 || y == height - 1 then '#' else '.'
         color := Color.BLACK } : Tile) ∈ generate_map width height) ∧
    (∀ t ∈ generate_map width height,
      (t.glyph = '#' ↔
        (t.pos.x = 0 ∨ t.pos.x = ((width - 1 : Nat) : Rat) ∨
         t.pos.y = 0 ∨ t.pos.y = ((height - 1 : Nat) : Rat))) ∧
      (t.glyph = '#' ∨ t.glyph = '.') ∧
      t.color = Color.BLACK) ∧
    (generate_map width height).countP (fun t => t.glyph == '#')
      = 2 * width + 2 * height - 4 := by
  refine ⟨generate_map_length width height, ?_, ?_, generate_map_wall_count width height hw hh⟩
  · intro x y hx hy
    unfold generate_map
    rw [List.mem_flatMap]
    exact ⟨x, List.mem_range.mpr hx, List.mem_map.mpr ⟨y, List.mem_range.mpr hy, rfl⟩⟩
  · intro t ht
    unfold generate_map at ht
    rw [List.mem_flatMap] at ht
    obtain ⟨x, -, ht⟩ := ht
    rw [List.mem_map] at ht
    obtain ⟨y, -, rfl⟩ := ht
    refine ⟨?_, ?_, rfl⟩
    · dsimp only
      split
      next hb =>
        simp only [Bool.or_eq_true, beq_iff_eq, or_assoc] at hb
        constructor
        · intro _
          rcases hb with h | h | h | h
          · exact Or.inl (by exact_mod_cast h)
          · exact Or.inr (Or.inl (by exact_mod_cast h))
          · exact Or.inr (Or.inr (Or.inl (by exact_mod_cast h)))
          · exact Or.inr (Or.inr (Or.inr (by exact_mod_cast h)))
        · intro _
          rfl
      next hb =>
        simp only [Bool.or_eq_true, beq_iff_eq, or_assoc] at hb
        push_neg at hb
        constructor
        · intro h
          exact absurd h (by decide)
        · intro hcontra
          exfalso
          rcases hcontra with h | h | h | h
          · exact hb.1 (by exact_mod_cast h)
          · exact hb.2.1 (by exact_mod_cast h)
          · exact hb.2.2.1 (by exact_mod_cast h)
          · exact hb.2.2.2 (by exact_mod_cast h)
    · dsimp only
      split
      · exact Or.inl rfl
      · exact Or.inr rfl

/-- C2 witness: the property of `C2_generate_map_shape` at the program's
actual map size 15x15. -/
theorem C2_generate_map_shape_witness :
    (generate_map 15 15).length = 15 * 15 ∧
    (generate_map 15 15).countP (fun t => t.glyph == '#') = 2 * 15 + 2 * 15 - 4 :=
  ⟨(C2_generate_map_shape 15 15 (by norm_num) (by norm_num)).1,
   (C2_generate_map_shape 15 15 (by norm_num) (by norm_num)).2.2.2⟩

/-- C3 counterexample: with the mononoki caption asset `failed`, the draw
routine does not render the remaining layers — the frame stops after the
clear and title draw, issues no map, entity or health-bar draw, and returns
the error to the host loop, refuting "the error only causes that asset's own
layer to be absent". -/
theorem C3_counterexample :
    (Game.draw failed_mono_game window0).2.2
      = Outcome.err (QError.renderFailed font_mononoki) ∧
    (Game.draw failed_mono_game window0).2.1.calls
      = [DrawCall.clear Color.WHITE, title_call window0 title_image] ∧
    (Game.draw failed_mono_game window0).2.1.calls.countP DrawCall.isBlendedDraw = 0 ∧
    (Game.draw failed_mono_game window0).2.1.calls.countP DrawCall.isRectFill = 0 := by
  exact ⟨rfl, rfl, by decide, by decide⟩

/-- C3 amended: a `failed` deferred asset observed during the draw phase
aborts the rest of the frame: `execute`'s error propagates through `?`, so
only the layers drawn before the failing asset are issued (here: the clear
and the title) and the frame returns the error; the later steps (remaining
caption, map, entities, health bar) are not executed. -/
theorem C3_amended (g : Game) (w : Window) (ti : Image) (e : QError)
    (h1 : g.title.state = .ready ti)
    (h2 : g.mononoki_font_info.state = .failed e) :
    g.draw w =
      (g, { w with calls := w.calls ++ [DrawCall.clear Color.WHITE, title_call w ti] },
       .err e) := by
  obtain ⟨⟨pt, stt, kt⟩, ⟨pm, stm, km⟩, ⟨ps, sts, ks⟩, ms, mp, ents, pid, ⟨pts, stts, kts⟩, tsz⟩ := g
  simp only [Asset.state] at h1 h2
  subst h1 h2
  simp [Game.draw, Asset.execute, title_call, Window.push]

/-- C3 amended witness: `C3_amended` at the concrete failed-caption scene. -/
theorem C3_amended_witness :
    failed_mono_game.title.state = AssetState.ready title_image ∧
    failed_mono_game.mononoki_font_info.state
      = AssetState.failed (QError.renderFailed font_mononoki) ∧
    Game.draw failed_mono_game window0 =
      (failed_mono_game,
       { window0 with calls := window0.calls ++
          [DrawCall.clear Color.WHITE, title_call window0 title_image] },
       .err (QError.renderFailed font_mononoki)) :=
  ⟨rfl, rfl,
   C3_amended failed_mono_game window0 title_image (QError.renderFailed font_mononoki) rfl rfl⟩

/-- C4 amended: the tileset builder unconditionally maps every character of
"#@g.%" (index i) to the 24x24 sub-image view of the strip at offset
(i*24, 0) — a view sharing the strip, not a copy; it performs no geometry
check, so it succeeds for a strip of any width. -/
theorem C4_amended (strip : Image) :
    tileset_of_strip strip =
      [ ('%', strip.subimage ⟨⟨96, 0⟩, tile_size_px⟩)
      , ('.', strip.subimage ⟨⟨72, 0⟩, tile_size_px⟩)
      , ('g', strip.subimage ⟨⟨48, 0⟩, tile_size_px⟩)
      , ('@', strip.subimage ⟨⟨24, 0⟩, tile_size_px⟩)
      , ('#', strip.subimage ⟨⟨0, 0⟩, tile_size_px⟩) ] ∧
    tileset_get (tileset_of_strip strip) '#' = some (strip.subimage ⟨⟨0, 0⟩, tile_size_px⟩) ∧
    tileset_get (tileset_of_strip strip) '@' = some (strip.subimage ⟨⟨24, 0⟩, tile_size_px⟩) ∧
    tileset_get (tileset_of_strip strip) 'g' = some (strip.subimage ⟨⟨48, 0⟩, tile_size_px⟩) ∧
    tileset_get (tileset_of_strip strip) '.' = some (strip.subimage ⟨⟨72, 0⟩, tile_size_px⟩) ∧
    tileset_get (tileset_of_strip strip) '%' = some (strip.subimage ⟨⟨96, 0⟩, tile_size_px⟩) ∧
    (∀ p ∈ tileset_of_strip strip, (p.2).size = ⟨24, 24⟩ ∧ ∃ r, p.2 = Image.sub strip r) := by
  refine ⟨rfl, rfl, rfl, rfl, rfl, rfl, ?_⟩
  intro p hp
  have hlist : tileset_of_strip strip =
      [ ('%', strip.subimage ⟨⟨96, 0⟩, tile_size_px⟩)
      , ('.', strip.subimage ⟨⟨72, 0⟩, tile_size_px⟩)
      , ('g', strip.subimage ⟨⟨48, 0⟩, tile_size_px⟩)
      , ('@', strip.subimage ⟨⟨24, 0⟩, tile_size_px⟩)
      , ('#', strip.subimage ⟨⟨0, 0⟩, tile_size_px⟩) ] := rfl
  rw [hlist] at hp
  simp only [List.mem_cons, List.not_mem_nil, or_false] at hp
  rcases hp with h | h | h | h | h <;> subst h <;>
    exact ⟨rfl, _, rfl⟩

/-- C4 counterexample: for a strip narrower than `len("#@g.%") * 24` the
builder does not fail — there is no `TilesetGeometryError` path.  With a
96-pixel strip, construction succeeds and the '%' cell is a view whose
horizontal extent `96 + 24` runs past the strip's width. -/
theorem C4_counterexample :
    narrow_strip.size.x = 96 ∧
    (96 : Rat) < 5 * 24 ∧
    tileset_producer env_narrow = Outcome.ok (tileset_of_strip narrow_strip) ∧
    (tileset_producer env_narrow).isErr = false ∧
    tileset_get (tileset_of_strip narrow_strip) '%'
      = some (narrow_strip.subimage ⟨⟨96, 0⟩, tile_size_px⟩) ∧
    (96 : Rat) + tile_size_px.x > narrow_strip.size.x := by
  refine ⟨rfl, by norm_num, rfl, rfl, rfl, ?_⟩
  show (96 : Rat) + 24 > 96
  norm_num

/-- C5 counterexample: when the square font loads but `Font::render` fails
while building the tileset, the producer does not surface a propagated
`DeferredAsset` failure — it panics (`expect`), the asset never transitions
to `failed`, and the per-frame access operation reports the panic, refuting
"rather than aborting the process directly". -/
theorem C5_counterexample :
    tileset_producer env_render_fail = Outcome.panic "Could not render the font tileset." ∧
    (tileset_producer env_render_fail).isErr = false ∧
    ((Asset.new (tileset_producer env_render_fail)).execute window0 (fun _ w => w)).2.2
      = Outcome.panic "Could not render the font tileset." ∧
    ((Asset.new (tileset_producer env_render_fail)).execute window0
      (fun _ w => w)).2.1.state.isFailed = false := by
  exact ⟨rfl, rfl, rfl, rfl⟩

/-- C5 amended: a `Font::load` failure propagates as a deferred-asset failure
for every producer, and a `Font::render` failure propagates for the three
caption producers; but in the tileset producer a render failure hits
`expect` and aborts the process with a panic instead of failing the asset. -/
theorem C5_amended (env : FontEnv) (e : QError) :
    (env.load font_mononoki = .error e →
      title_producer env = .err e ∧
      mononoki_info_producer env = .err e ∧
      square_info_producer env = .err e) ∧
    (env.load font_square = .error e → tileset_producer env = .err e) ∧
    (∀ font : Font, env.load font_mononoki = .ok font →
      font.render "Quicksilver Roguelike" ⟨72, Color.BLACK⟩ = .error e →
      title_producer env = .err e) ∧
    (∀ font : Font, env.load font_square = .ok font →
      font.render game_glyphs ⟨tile_size_px.y, Color.WHITE⟩ = .error e →
      tileset_producer env = .panic "Could not render the font tileset.") := by
  refine ⟨fun h => ?_, fun h => ?_, fun font hf hr => ?_, fun font hf hr => ?_⟩
  · unfold title_producer mononoki_info_producer square_info_producer
    rw [h]
    exact ⟨rfl, rfl, rfl⟩
  · unfold tileset_producer
    rw [h]
  · unfold title_producer
    rw [hf]
    dsimp only
    rw [hr]
  · unfold tileset_producer
    rw [hf]
    dsimp only
    rw [hr]

/-- C5 amended witness: `C5_amended` at two concrete environments — a failing
loader (error propagates) and a failing renderer (the tileset producer
panics). -/
theorem C5_amended_witness :
    title_producer env_load_fail = Outcome.err (QError.fontLoadFailed font_mononoki) ∧
    tileset_producer env_render_fail = Outcome.panic "Could not render the font tileset." := by
  constructor
  · exact ((C5_amended env_load_fail (QError.fontLoadFailed font_mononoki)).1 rfl).1
  · exact (C5_amended env_render_fail (QError.renderFailed game_glyphs)).2.2.2
      ⟨fun text _ => .error (QError.renderFailed text)⟩ rfl rfl

/-- C6: the health-bar overlay draws, as the final two calls of a frame, two
rectangles anchored at `map_offset_px + (map_size.x * tile_size.x, 0)` with
height the tile pixel height: first a translucent full bar of fixed width
W = 100, then an opaque bar of width `W * hp / max_hp`; numerically,
hp=3/max_hp=5 gives width 60, hp=0 gives 0, and hp = max_hp ≠ 0 gives W. -/
theorem C6_health_bar (g : Game) (w : Window) (ti mi si : Image)
    (ts : List (Char × Image)) (player : Entity)
    (h1 : g.title.state = .ready ti)
    (h2 : g.mononoki_font_info.state = .ready mi)
    (h3 : g.square_font_info.state = .ready si)
    (h4 : g.tileset.state = .ready ts)
    (h5 : g.entities.get? g.player_entity_id = some player) :
    (∃ rest : List DrawCall,
      (g.draw w).2.1.calls = rest ++
        [DrawCall.draw ⟨map_offset_px + ⟨(g.map_size.times g.tile_size_px).x, 0⟩,
            ⟨100, g.tile_size_px.y⟩⟩ (.Col (Color.RED.with_alpha (1/2))),
         DrawCall.draw ⟨map_offset_px + ⟨(g.map_size.times g.tile_size_px).x, 0⟩,
            ⟨((player.hp : Rat) / (player.max_hp : Rat)) * 100, g.tile_size_px.y⟩⟩
           (.Col Color.RED)]) ∧
    ((3 : Rat) / 5) * 100 = 60 ∧
    ((0 : Rat) / 5) * 100 = 0 ∧
    (∀ m : Int, (m : Rat) ≠ 0 → ((m : Rat) / (m : Rat)) * 100 = 100) := by
  refine ⟨?_, by norm_num, by norm_num, fun m hm => by field_simp⟩
  rw [draw_ready g w ti mi si ts player h1 h2 h3 h4 h5]
  refine ⟨w.calls ++
    [DrawCall.clear Color.WHITE, title_call w ti, mono_call w mi, square_call w si]
    ++ map_layer ts g.tile_size_px g.map
    ++ entity_layer ts g.tile_size_px g.entities, ?_⟩
  simp [health_bar_calls, List.append_assoc]

/-- C6 witness: `C6_health_bar` at the concrete ready scene; with hp=3 and
max_hp=5 the opaque bar is 60 pixels wide at anchor (410, 120). -/
theorem C6_health_bar_witness :
    ready_game.entities.get? ready_game.player_entity_id = some player_entity ∧
    (∃ rest : List DrawCall,
      (Game.draw ready_game window0).2.1.calls = rest ++
        [DrawCall.draw ⟨⟨410, 120⟩, ⟨100, 24⟩⟩ (.Col (Color.RED.with_alpha (1/2))),
         DrawCall.draw ⟨⟨410, 120⟩, ⟨60, 24⟩⟩ (.Col Color.RED)]) := by
  refine ⟨rfl, ?_⟩
  obtain ⟨⟨rest, hr⟩, -, -, -⟩ := C6_health_bar ready_game window0 title_image
    mono_image square_image default_tileset player_entity rfl rfl rfl rfl rfl
  refine ⟨rest, hr.trans ?_⟩
  have h1 : (DrawCall.draw ⟨map_offset_px
        + ⟨(ready_game.map_size.times ready_game.tile_size_px).x, 0⟩,
      ⟨100, ready_game.tile_size_px.y⟩⟩ (.Col (Color.RED.with_alpha (1/2))))
      = DrawCall.draw ⟨⟨410, 120⟩, ⟨100, 24⟩⟩ (.Col (Color.RED.with_alpha (1/2))) := by
    with_unfolding_all rfl
  have h2 : (DrawCall.draw ⟨map_offset_px
        + ⟨(ready_game.map_size.times ready_game.tile_size_px).x, 0⟩,
      ⟨((player_entity.hp : Rat) / (player_entity.max_hp : Rat)) * 100,
        ready_game.tile_size_px.y⟩⟩ (.Col Color.RED))
      = DrawCall.draw ⟨⟨410, 120⟩, ⟨60, 24⟩⟩ (.Col Color.RED) := by
    with_unfolding_all rfl
  rw [h1, h2]

/-- C7: accessing a deferred asset N times, when the producer succeeds on its
first evaluation, evaluates the producer exactly once (zero times for N = 0),
invokes the consumer N times, each time with the same cached value, and the
stored computation is untouched — repeated access never duplicates the
loading work. -/
theorem C7_producer_evaluated_once (α : Type) (v : α) (n : Nat) :
    (((Asset.new (Outcome.ok v)).runN [] n).1).evals = (if n = 0 then 0 else 1) ∧
    ((Asset.new (Outcome.ok v)).runN [] n).2 = List.replicate n v ∧
    (((Asset.new (Outcome.ok v)).runN [] n).1).producer = Outcome.ok v := by
  cases n with
  | zero => exact ⟨rfl, rfl, rfl⟩
  | succ n =>
    have h : (Asset.new (Outcome.ok v)).runN [] (n + 1)
        = (Asset.mk (Outcome.ok v) (.ready v) 1).runN [v] n := rfl
    rw [h, runN_ready]
    refine ⟨rfl, ?_, rfl⟩
    simp [List.replicate_succ]

/-- C8: within one frame with every asset ready, every entity draw is issued
after all map-tile draws (painter's algorithm: the entity layer strictly
follows the map layer in the issued call list, so an entity overlapping a
tile's cell paints last), and both layers use the same grid-to-screen
transform `map_offset_px + gridPos * tile_size_px` (visible in the
definitions of `map_layer` and `entity_layer`). -/
theorem C8_entities_above_map (g : Game) (w : Window) (ti mi si : Image)
    (ts : List (Char × Image)) (player : Entity)
    (h1 : g.title.state = .ready ti)
    (h2 : g.mononoki_font_info.state = .ready mi)
    (h3 : g.square_font_info.state = .ready si)
    (h4 : g.tileset.state = .ready ts)
    (h5 : g.entities.get? g.player_entity_id = some player) :
    (g.draw w).2.1.calls =
      w.calls
      ++ [DrawCall.clear Color.WHITE, title_call w ti, mono_call w mi, square_call w si]
      ++ map_layer ts g.tile_size_px g.map
      ++ entity_layer ts g.tile_size_px g.entities
      ++ health_bar_calls g player := by
  rw [draw_ready g w ti mi si ts player h1 h2 h3 h4 h5]

/-- C8 witness: `C8_entities_above_map` at the concrete ready scene. -/
theorem C8_entities_above_map_witness :
    ready_game.tileset.state = AssetState.ready default_tileset ∧
    (Game.draw ready_game window0).2.1.calls =
      window0.calls
      ++ [DrawCall.clear Color.WHITE, title_call window0 title_image,
          mono_call window0 mono_image, square_call window0 square_image]
      ++ map_layer default_tileset ready_game.tile_size_px ready_game.map
      ++ entity_layer default_tileset ready_game.tile_size_px ready_game.entities
      ++ health_bar_calls ready_game player_entity :=
  ⟨rfl, C8_entities_above_map ready_game window0 title_image mono_image square_image
    default_tileset player_entity rfl rfl rfl rfl rfl⟩

set_option maxRecDepth 100000 in
/-- C9 counterexample: there is no construction-time rejection of a zero
`max_hp` player — `Game::new` is infallible (it always returns `Ok`), and on
a state whose player has `max_hp = 0` the draw routine runs to completion,
evaluating the division with the zero divisor (in this exact-rational
embedding `3 / 0 = 0`; in `f32` it is an infinity — in neither case an
error), refuting "rejected at construction/setup time, not handled at draw
time". -/
theorem C9_counterexample :
    Game.new good_env = Except.ok (Game.init good_env) ∧
    (Game.draw zero_max_hp_game window0).2.2 = Outcome.ok () ∧
    (Game.draw zero_max_hp_game window0).2.1.calls.getLast?
      = some (DrawCall.draw ⟨⟨410, 120⟩, ⟨((3 : Rat) / 0) * 100, 24⟩⟩ (.Col Color.RED)) ∧
    ((3 : Rat) / 0) * 100 = 0 := by
  refine ⟨rfl, ?_, ?_, by norm_num⟩
  · have h := draw_ready zero_max_hp_game window0 title_image mono_image square_image
      default_tileset { player_entity with max_hp := 0 } rfl rfl rfl rfl rfl
    rw [h]
  · have h := draw_ready zero_max_hp_game window0 title_image mono_image square_image
      default_tileset { player_entity with max_hp := 0 } rfl rfl rfl rfl rfl
    rw [h]
    with_unfolding_all rfl

/-- C9 amended: `Game::new` performs no `max_hp` validation and has no
failure path at all (it is always `Ok`); the health-bar division still never
sees a zero divisor in a state produced by setup, because the player is
hard-coded with `max_hp = 5` — nothing would reject a zero value if one were
introduced. -/
theorem C9_amended (env : FontEnv) :
    Game.new env = Except.ok (Game.init env) ∧
    (Game.init env).entities.get? (Game.init env).player_entity_id = some player_entity ∧
    player_entity.max_hp = 5 ∧
    ((player_entity.max_hp : Rat) ≠ 0) :=
  ⟨rfl, rfl, rfl, by norm_num [player_entity]⟩

/-- C10: in the state built by `Game::new`, the player index is
`entities.len() - 1 = 4` and the player's `max_hp` is 5; since neither
`update` nor `draw` ever mutates the entity list or the player index, in
every state reachable after any number of frames the unguarded indexing
`entities[player_entity_id]` finds the player and the health-bar division has
a nonzero divisor. -/
theorem C10_player_index_safe (env : FontEnv) (w : Window) (n : Nat) :
    ((run_frames (Game.init env) w n).1).entities = generate_entities ++ [player_entity] ∧
    ((run_frames (Game.init env) w n).1).player_entity_id
      = ((run_frames (Game.init env) w n).1).entities.length - 1 ∧
    ((run_frames (Game.init env) w n).1).player_entity_id = 4 ∧
    ((run_frames (Game.init env) w n).1).entities.get?
      ((run_frames (Game.init env) w n).1).player_entity_id = some player_entity ∧
    player_entity.max_hp = 5 ∧
    ((player_entity.max_hp : Rat) ≠ 0) := by
  have key : ∀ (m : Nat) (g : Game) (ww : Window),
      ((run_frames g ww m).1).entities = g.entities ∧
      ((run_frames g ww m).1).player_entity_id = g.player_entity_id := by
    intro m
    induction m with
    | zero => exact fun g ww => ⟨rfl, rfl⟩
    | succ m ih =>
      intro g ww
      have hd := draw_preserves_scene g ww
      have hrec := ih (g.draw ww).1 (g.draw ww).2.1
      exact ⟨hrec.1.trans hd.1, hrec.2.trans hd.2.1⟩
  have h := key n (Game.init env) w
  have he : (Game.init env).entities = generate_entities ++ [player_entity] := rfl
  have hp : (Game.init env).player_entity_id = 4 := rfl
  refine ⟨h.1.trans he, ?_, h.2.trans hp, ?_, rfl, by norm_num [player_entity]⟩
  · rw [h.2, hp, h.1.trans he]
    rfl
  · rw [h.2, hp, h.1.trans he]
    rfl

/-- C4 amended witness: `C4_amended` at a concrete strip — the '#' cell is
the 24x24 view at offset (0,0) of that strip. -/
theorem C4_amended_witness :
    tileset_get (tileset_of_strip strip_image) '#'
      = some (strip_image.subimage ⟨⟨0, 0⟩, tile_size_px⟩) ∧
    (strip_image.subimage ⟨⟨0, 0⟩, tile_size_px⟩).size = ⟨24, 24⟩ := by
  refine ⟨(C4_amended strip_image).2.1, ?_⟩
  have hmem : (('#', strip_image.subimage ⟨⟨0, 0⟩, tile_size_px⟩) : Char × Image)
      ∈ tileset_of_strip strip_image := by
    rw [(C4_amended strip_image).1]
    simp
  exact ((C4_amended strip_image).2.2.2.2.2.2 _ hmem).1

/-- C7 witness: `C7_producer_evaluated_once` at a concrete asset accessed
three times — one producer evaluation, three consumer invocations with the
cached value. -/
theorem C7_producer_evaluated_once_witness :
    (((Asset.new (Outcome.ok (7 : Nat))).runN [] 3).1).evals = 1 ∧
    ((Asset.new (Outcome.ok (7 : Nat))).runN [] 3).2 = [7, 7, 7] := by
  have h := C7_producer_evaluated_once Nat 7 3
  exact ⟨h.1, h.2.1⟩

/-- C9 amended witness: `C9_amended` at a concrete environment. -/
theorem C9_amended_witness :
    Game.new good_env = Except.ok (Game.init good_env) ∧ player_entity.max_hp = 5 :=
  ⟨(C9_amended good_env).1, (C9_amended good_env).2.2.1⟩

/-- C10 witness: `C10_player_index_safe` after three concrete frames. -/
theorem C10_player_index_safe_witness :
    ((run_frames (Game.init good_env) window0 3).1).player_entity_id = 4 ∧
    ((run_frames (Game.init good_env) window0 3).1).entities.get? 4 = some player_entity := by
  have h := C10_player_index_safe good_env window0 3
  refine ⟨h.2.2.1, ?_⟩
  rw [← h.2.2.1]
  exact h.2.2.2.1

end RL
